import Mathlib

/-!
Shallow embedding of the SourceIO BSP container resolver
(`library/source1/bsp/bsp_file.py`), the entity lump decoder
(`library/source1/bsp/lumps/entity_lump.py`) and the KeyValues
lexer/parser (`library/utils/kv_parser.py`), together with theorems
settling the frozen claims about them.

Machine integers are modelled as `Nat` (all quantities involved are
unsigned reads that the code never overflows), byte buffers as
`List Nat`, and Python exceptions as `Except` errors.
-/

namespace Bsp

/-- Opaque decoded-lump payload: the claims never inspect a decoded
lump's content, only its identity, so a `Nat` stands for it. -/
abbrev LumpVal := Nat

/-- A byte buffer (`IBuffer` contents) as a list of byte values. -/
abbrev Buf := List Nat

/-- Match rule attached to a decoder class by the `lump_tag` decorator:
`(lump_id, lump_name, bsp_version=None, steam_id=None, lump_version=None)`,
exactly the fields `BSPFile.get_lump` reads off `dep`. -/
structure LumpTag where
  lump_id : Nat
  lump_name : String
  bsp_version : Option Nat
  steam_id : Option Nat
  lump_version : Option Nat
deriving DecidableEq, Repr

/-- Lump descriptor fields that `bsp_file.py` accesses on an entry of
`lumps_info`: `id`, `offset`, `size`, `version`, `compressed`,
`decompressed_size`. -/
structure LumpInfo where
  id : Nat
  offset : Nat
  size : Nat
  version : Nat
  compressed : Bool
  decompressed_size : Nat
deriving DecidableEq, Repr

/-- Static environment of a `BSPFile`: the registry
(`Lump.all_subclasses()` flattened with each class's `tags`, in
iteration order, each class named by a `Nat`), the decoder behaviour
(`lump_class(lump_info).parse(buffer, self)` as a pure function), the
compression codec (`Lump.decompress_lump`) and the file system used for
external `.bsp_lump` override lookups. -/
structure BspEnv where
  registry : List (Nat × LumpTag)
  decoder : Nat → LumpInfo → Option Buf → LumpVal
  decompress : Buf → Buf
  fs : String → Option Buf

/-- Mutable state of a `BSPFile` instance.  `lumpsByName` and
`lumpsById` split the Python dict `self.lumps` by key type (string
keys written by `get_lump`, int keys written by `parse_lump`; the two
kinds of key never collide in a Python dict).  `decodeCount` counts
decoder invocations so that memoization is observable. -/
structure BspState where
  filename : String
  buffer : Buf
  version : Nat
  steam_app_id : Nat
  lumps_info : List LumpInfo
  lumpsByName : List (String × Option LumpVal)
  lumpsById : List (Nat × Option LumpVal)
  decodeCount : Nat
deriving DecidableEq, Repr

/-- Ordered-dict lookup. -/
def assocFind {α β : Type} [DecidableEq α] : List (α × β) → α → Option β
  | [], _ => none
  | (k, v) :: rest, a => if k = a then some v else assocFind rest a

/-- Ordered-dict assignment: overwrite in place when the key exists
(keeping its position), append otherwise — Python dict semantics. -/
def assocUpdate {α β : Type} [DecidableEq α] : List (α × β) → α → β → List (α × β)
  | [], a, b => [(a, b)]
  | (k, v) :: rest, a, b =>
    if k = a then (k, b) :: rest else (k, v) :: assocUpdate rest a b

/-- Lowercase hex digit. -/
def hexChar (n : Nat) : Char :=
  if n < 10 then Char.ofNat (48 + n) else Char.ofNat (87 + n)

/-- `f"{lump_id:04x}"`: four lowercase hex digits. -/
def hex4 (n : Nat) : String :=
  String.mk [hexChar (n / 4096 % 16), hexChar (n / 256 % 16),
             hexChar (n / 16 % 16), hexChar (n % 16)]

/-- External override path `f"{self.filepath.name}.{lump_id:04x}.bsp_lump"`. -/
def extLumpPath (filename : String) (lump_id : Nat) : String :=
  filename ++ "." ++ hex4 lump_id ++ ".bsp_lump"

/-- `self.buffer.slice(offset, size)`. -/
def sliceBuf (b : Buf) (offset size : Nat) : Buf :=
  (b.drop offset).take size

/-- `BSPFile._get_lump_buffer`: external override file first; else a
direct slice when not compressed; else replace `self.buffer` with the
decompressed slice, assert the decompressed size, and return `None`
(the method's `else` branch has no `return` statement). -/
def get_lump_buffer (env : BspEnv) (s : BspState) (lump_id : Nat)
    (lump_info : LumpInfo) : Except String (Option Buf × BspState) :=
  match env.fs (extLumpPath s.filename lump_id) with
  | some fileBytes => .ok (some fileBytes, s)
  | none =>
    if !lump_info.compressed then
      .ok (some (sliceBuf s.buffer lump_info.offset lump_info.size), s)
    else
      let newBuf := env.decompress (sliceBuf s.buffer lump_info.offset lump_info.size)
      if newBuf.length = lump_info.decompressed_size then
        .ok (none, { s with buffer := newBuf })
      else
        .error "AssertionError: decompressed size mismatch"

/-- `BSPFile.parse_lump`: when the descriptor's size is nonzero, obtain
the buffer, invoke the decoder, store the result under the integer key
`lump_id`, and return it; otherwise fall through returning `None`.
Python's `self.lumps_info[lump_id]` raises `IndexError` when out of
range. -/
def parse_lump (env : BspEnv) (s : BspState) (decId lump_id : Nat) :
    Except String (Option LumpVal × BspState) :=
  match s.lumps_info[lump_id]? with
  | none => .error "IndexError"
  | some lump_info =>
    if lump_info.size ≠ 0 then
      match get_lump_buffer env s lump_id lump_info with
      | .error e => .error e
      | .ok (buffer, s1) =>
        let v := env.decoder decId lump_info buffer
        .ok (some v,
          { s1 with lumpsById := assocUpdate s1.lumpsById lump_id (some v),
                    decodeCount := s1.decodeCount + 1 })
    else
      .ok (none, s)

/-- The candidate filter of `get_lump` (the `continue` chain): a tag for
the requested name survives unless a present constraint is unsatisfied.
`self.lumps_info[dep.lump_id]` is only indexed when `lump_version` is
present, and raises `IndexError` when out of range. -/
def filterMatches (s : BspState) (lump_name : String) :
    List (Nat × LumpTag) → Except String (List (Nat × LumpTag))
  | [] => .ok []
  | (d, dep) :: rest =>
    match filterMatches s lump_name rest with
    | .error e => .error e
    | .ok tail =>
      if dep.lump_name ≠ lump_name then .ok tail
      else if (match dep.bsp_version with
               | some bv => decide (bv > s.version)
               | none => false) then .ok tail
      else if (match dep.steam_id with
               | some sid => decide (sid ≠ s.steam_app_id)
               | none => false) then .ok tail
      else
        match dep.lump_version with
        | none => .ok ((d, dep) :: tail)
        | some lv =>
          match s.lumps_info[dep.lump_id]? with
          | none => .error "IndexError"
          | some li => if lv ≠ li.version then .ok tail else .ok ((d, dep) :: tail)

/-- The ranking loop body of `get_lump`, verbatim from the source:
`rank += 1` when `bsp_version is not None and bsp_version > self.version`,
when `steam_id is not None and steam_id == self.steam_app_id`, and when
`lump_version is not None and lump_version == lump.version` (where
`lump = self.lumps_info[dep.lump_id]`, indexed unconditionally). -/
def rankOf (s : BspState) (dep : LumpTag) : Except String Nat :=
  match s.lumps_info[dep.lump_id]? with
  | none => .error "IndexError"
  | some li =>
    .ok ((if (match dep.bsp_version with
              | some bv => decide (bv > s.version)
              | none => false) then 1 else 0)
       + (if (match dep.steam_id with
              | some sid => decide (sid = s.steam_app_id)
              | none => false) then 1 else 0)
       + (if (match dep.lump_version with
              | some lv => decide (lv = li.version)
              | none => false) then 1 else 0))

/-- `best_matches[rank] = (match_sub, match_dep)` over the match list in
iteration order: a Python dict keyed by rank, so a later candidate with
an equal rank overwrites the earlier one. -/
def buildBest (s : BspState) (acc : List (Nat × (Nat × LumpTag))) :
    List (Nat × LumpTag) → Except String (List (Nat × (Nat × LumpTag)))
  | [] => .ok acc
  | c :: rest =>
    match rankOf s c.2 with
    | .error e => .error e
    | .ok rank => buildBest s (assocUpdate acc rank c) rest

/-- `max(best_matches.keys())` over a nonempty dict. -/
def maxKey {β : Type} (k0 : Nat) (rest : List (Nat × β)) : Nat :=
  rest.foldl (fun m p => max m p.1) k0

/-- The decoder-selection portion of `BSPFile.get_lump` (lines 64-90):
filter the registry's tags for the name, rank the survivors into the
`best_matches` dict, return `None` when it is empty, else the entry at
the maximal rank. -/
def selectDecoder (env : BspEnv) (s : BspState) (lump_name : String) :
    Except String (Option (Nat × LumpTag)) :=
  match filterMatches s lump_name env.registry with
  | .error e => .error e
  | .ok ms =>
    match buildBest s [] ms with
    | .error e => .error e
    | .ok best =>
      match best with
      | [] => .ok none
      | (k0, c0) :: rest => .ok (assocFind ((k0, c0) :: rest) (maxKey k0 rest))

/-- `BSPFile.get_lump`: return the cached entry when the name key is
present in `self.lumps`; otherwise select a decoder, return `None`
(caching nothing) when there is none, else run `parse_lump` and store
its result (possibly `None`) under the name key. -/
def get_lump (env : BspEnv) (s : BspState) (lump_name : String) :
    Except String (Option LumpVal × BspState) :=
  match assocFind s.lumpsByName lump_name with
  | some v => .ok (v, s)
  | none =>
    match selectDecoder env s lump_name with
    | .error e => .error e
    | .ok none => .ok (none, s)
    | .ok (some (d, dep)) =>
      match parse_lump env s d dep.lump_id with
      | .error e => .error e
      | .ok (parsed, s1) =>
        .ok (parsed, { s1 with lumpsByName := assocUpdate s1.lumpsByName lump_name parsed })

/-- Bounds-checked Python list assignment `l[i] = a`. -/
def pyListSet {α : Type} (l : List α) (i : Nat) (a : α) : Except String (List α) :=
  if i < l.length then .ok (l.set i a) else .error "IndexError"

/-- The descriptor-reading loop of `RespawnBSPFile.from_filename`:
`for lump_id in range(last_lump + 1): lump = LumpInfo.from_buffer(buffer);
lump.id = lump_id; self.lumps_info[lump_id] = lump`, started with
`self.lumps_info = [None] * last_lump`.  `recs i` abstracts the record
read at directory position `i` (the buffer read itself is external
code); `count` is the number of iterations remaining. -/
def respawnStoreLoop (recs : Nat → LumpInfo) :
    Nat → Nat → List (Option LumpInfo) → Except String (List (Option LumpInfo))
  | _, 0, acc => .ok acc
  | i, count + 1, acc =>
    match pyListSet acc i (some { recs i with id := i }) with
    | .error e => .error e
    | .ok acc1 => respawnStoreLoop recs (i + 1) count acc1

/-- `RespawnBSPFile.from_filename` after the three header reads: the
lump-descriptor directory load for a declared last-lump-index. -/
def respawnLoadDescriptors (recs : Nat → LumpInfo) (last_lump : Nat) :
    Except String (List (Option LumpInfo)) :=
  respawnStoreLoop recs 0 (last_lump + 1) (List.replicate last_lump none)

/-- Magic tags as byte lists. -/
def vbspMagic : Buf := [86, 66, 83, 80]

/-- `b"rBSP"`. -/
def rbspMagic : Buf := [114, 66, 83, 80]

/-- Which dialect constructor `open_bsp` dispatches to. -/
inductive BspDialect
  | standard
  | respawn
deriving DecidableEq, Repr

/-- `open_bsp`: assert the file exists, read 8 bytes as `4sI`
(raising `struct.error` when the file is shorter), then dispatch on the
magic; a file whose magic is neither `VBSP` nor `rBSP` falls off the
`if/elif` chain and the function returns `None`.  The dialect value
abstracts the `from_filename` construction the claim does not concern. -/
def open_bsp (fs : String → Option Buf) (filepath : String) :
    Except String (Option BspDialect) :=
  match fs filepath with
  | none => .error "AssertionError: file does not exist"
  | some bytes =>
    if bytes.length < 8 then .error "struct.error"
    else
      let magic := bytes.take 4
      if magic = vbspMagic then .ok (some .standard)
      else if magic = rbspMagic then .ok (some .respawn)
      else .ok none

end Bsp

namespace KV

/-- Token kinds of the `VKVToken` enum in `kv_parser.py`. -/
inductive VKVKind
  | STRING
  | NUMERIC
  | IDENTIFIER
  | COMMENT
  | LPAREN
  | RPAREN
  | LBRACKET
  | RBRACKET
  | LBRACE
  | RBRACE
  | NEWLINE
  | EOF
deriving DecidableEq, Repr

/-- A `(kind, value)` token pair; the EOF token carries `None`. -/
abbrev VToken := VKVKind × Option String

/-- Python exceptions the lexer/parser can raise.  `fuelOut` is an
artefact of the fuel-bounded evaluator and never occurs in any theorem
below. -/
inductive PyErr
  | fgdLexer (c : Char)
  | fgdParser (k : VKVKind)
  | stopIteration
  | indexError
  | fuelOut
deriving DecidableEq, Repr

/-- `str.isprintable` restricted to the ASCII range the claims exercise
(on ASCII, Python's predicate is exactly "not a control character":
`0x20..0x7e`). The model only ever feeds the lexer ASCII text. -/
def pyIsPrintable (c : Char) : Bool :=
  32 ≤ c.toNat && c.toNat ≤ 126

/-- `str.isspace` on ASCII: space, tab, newline, carriage return,
vertical tab, form feed. -/
def pyIsSpace (c : Char) : Bool :=
  c = ' ' || c = '\t' || c = '\n' || c = '\r' ||
  c = Char.ofNat 11 || c = Char.ofNat 12

/-- The disallowed set of `_is_valid_symbol`. -/
def simpleExcluded : List Char := ['{', '}', '[', ']', '"', '\'', '\n', '\r']

/-- `ValveKeyValueLexer._is_valid_symbol`. -/
def isValidSymbol (c : Char) : Bool :=
  (pyIsPrintable c || c = '\t') && !(simpleExcluded.contains c)

/-- The extra characters `_is_valid_quoted_symbol` additionally allows. -/
def quotedExtra : List Char :=
  ['$', '%', '.', ',', '\\', '/', '<', '>', '=', '!', '[', ']', '{', '}', '?']

/-- `ValveKeyValueLexer._is_valid_quoted_symbol`. -/
def isValidQuotedSymbol (c : Char) : Bool :=
  isValidSymbol c || quotedExtra.contains c

/-- The characters after a backslash that trigger the escape branch of
`read_quoted_string` (`self.next_symbol in '\'"\n\t\r'`). -/
def escapeSet : List Char := ['\'', '"', '\n', '\t', '\r']

/-- `str.strip()` from the left on ASCII. -/
def stripLeft (cs : List Char) : List Char := cs.dropWhile pyIsSpace

/-- `str.strip()` (both ends); `.strip().rstrip()` in the source is the
same operation since `strip` already removes trailing whitespace. -/
def pyStrip (cs : List Char) : List Char :=
  ((stripLeft cs).reverse.dropWhile pyIsSpace).reverse

/-- `ValveKeyValueLexer.read_simple_string`: accumulate valid symbols
that are not terminators (an imperative while-loop reading one char per
iteration), then strip the result; the terminator itself is not
consumed. -/
def read_simple_string (terminators : List Char) (cs : List Char) :
    List Char × List Char :=
  let p := fun c => isValidSymbol c && !(terminators.contains c)
  (pyStrip (cs.takeWhile p), cs.dropWhile p)

/-- The while-loop of `ValveKeyValueLexer.read_quoted_string`, entered
with the opening quote `q` already consumed.  When the current symbol is
a backslash and the next symbol is in the escape set, the backslash is
consumed and the break test still sees the backslash (which always
passes), so the next symbol is appended literally.  At end of buffer the
empty symbol satisfies the break condition (`"" in s` is `True` in
Python), and a backslash as the very last character is consumed with
nothing appended. -/
def readQuotedBody (q : Char) : List Char → List Char × List Char
  | [] => ([], [])
  | [c] =>
    if c = '\\' then ([], [])
    else if !(isValidQuotedSymbol c) || c = q || c = '\n' then ([], [c])
    else ([c], [])
  | c :: e :: rest =>
    if c = '\\' && escapeSet.contains e then
      let (s, r) := readQuotedBody q rest
      (e :: s, r)
    else if !(isValidQuotedSymbol c) || c = q || c = '\n' then ([], c :: e :: rest)
    else
      let (s, r) := readQuotedBody q (e :: rest)
      (c :: s, r)

/-- `ValveKeyValueLexer.read_quoted_string` after the opening quote `q`
was consumed: run the body loop, consume the terminator when it is the
next symbol (a missing terminator only warns), and strip the result. -/
def read_quoted_string (q : Char) (cs : List Char) : List Char × List Char :=
  let (s, r) := readQuotedBody q cs
  let r1 := match r with
    | c :: tail => if c = q then tail else c :: tail
    | [] => []
  (pyStrip s, r1)

/-- One iteration of the `lex` generator's while-loop on current symbol
`c` with remaining buffer `cs`: possibly a token, and the buffer after
the iteration.  Branches in source order: newline (collapsing a run),
other whitespace, `//` comment, `{`, `}`, simple string, quoted string
(two consecutive quote symbols — or a quote as the last character, since
`"" in '\'"'` holds in Python — yield an explicit empty string token),
`[`, `]`, unknown-printable warn-and-skip, fatal lexer error. -/
def lexStep (c : Char) (cs : List Char) : Except PyErr (Option VToken × List Char) :=
  if c = '\n' then
    .ok (some (.NEWLINE, some "\n"), cs.dropWhile (· = '\n'))
  else if pyIsSpace c then
    .ok (none, cs)
  else if c = '/' && cs.head? = some '/' then
    .ok (none, cs.tail.dropWhile (· ≠ '\n'))
  else if c = '{' then
    .ok (some (.LBRACE, some "\x7b"), cs)
  else if c = '}' then
    .ok (some (.RBRACE, some "\x7d"), cs)
  else if isValidSymbol c then
    let (s, r) := read_simple_string [' ', '\t', '\n'] (c :: cs)
    .ok (if s.isEmpty then none else some (.STRING, some (String.mk s)), r)
  else if c = '\'' || c = '"' then
    if (match cs.head? with
        | some d => d = '\'' || d = '"'
        | none => true) then
      .ok (some (.STRING, some ""), cs.tail)
    else
      let (s, r) := read_quoted_string c cs
      .ok (if s.isEmpty then none else some (.STRING, some (String.mk s)), r)
  else if c = '[' then
    .ok (some (.LBRACKET, some "["), cs)
  else if c = ']' then
    .ok (some (.RBRACKET, some "]"), cs)
  else if pyIsPrintable c then
    .ok (none, cs)
  else
    .error (.fgdLexer c)

/-- Pull the next token from the `lex` generator: run loop iterations
until one yields a token; when the buffer is exhausted the generator
yields a final EOF token once and afterwards raises `StopIteration`.
`eofEmitted` records whether the EOF token was already produced.  The
fuel only bounds recursion depth; every iteration consumes at least one
character, so `chars.length + 1` is always enough. -/
def pullTok : Nat → List Char → Bool → Except PyErr (VToken × List Char × Bool)
  | 0, _, _ => .error .fuelOut
  | _ + 1, [], false => .ok ((.EOF, none), [], true)
  | _ + 1, [], true => .error .stopIteration
  | n + 1, c :: rest, e =>
    match lexStep c rest with
    | .error err => .error err
    | .ok (some t, r) => .ok (t, r, e)
    | .ok (none, r) => pullTok n r e

/-- State of `ValveKeyValueParser`'s token plumbing: `pending` is
`self._last_peek`, `chars` the lexer's unread buffer, `eofEmitted`
whether the generator already yielded its EOF token. -/
structure PState where
  pending : Option VToken
  chars : List Char
  eofEmitted : Bool
deriving DecidableEq, Repr

/-- `ValveKeyValueParser.peek`: return the cached token or pull and
cache one. -/
def peekP (n : Nat) (p : PState) : Except PyErr (VToken × PState) :=
  match p.pending with
  | some t => .ok (t, p)
  | none =>
    match pullTok n p.chars p.eofEmitted with
    | .error e => .error e
    | .ok (t, cs, e) => .ok (t, { pending := some t, chars := cs, eofEmitted := e })

/-- `ValveKeyValueParser.advance`: consume the cached token or pull one. -/
def advanceP (n : Nat) (p : PState) : Except PyErr (VToken × PState) :=
  match p.pending with
  | some t => .ok (t, { p with pending := none })
  | none =>
    match pullTok n p.chars p.eofEmitted with
    | .error e => .error e
    | .ok (t, cs, e) => .ok (t, { pending := none, chars := cs, eofEmitted := e })

/-- `ValveKeyValueParser._skip_newlines`. -/
def skipNewlinesP : Nat → PState → Except PyErr PState
  | 0, _ => .error .fuelOut
  | n + 1, p =>
    match peekP (n + 1) p with
    | .error e => .error e
    | .ok (t, p1) =>
      if t.1 = .NEWLINE then
        match advanceP (n + 1) p1 with
        | .error e => .error e
        | .ok (_, p2) => skipNewlinesP n p2
      else .ok p1

/-- The recovery loop of `ValveKeyValueParser.expect`:
`while not self.match(NEWLINE): self.advance()` — it stops with the
newline still pending (un-consumed), and raises `StopIteration` when
it runs past the end of the token stream. -/
def expectSkipP : Nat → PState → Except PyErr PState
  | 0, _ => .error .fuelOut
  | n + 1, p =>
    match peekP (n + 1) p with
    | .error e => .error e
    | .ok (t, p1) =>
      if t.1 = .NEWLINE then .ok p1
      else
        match advanceP (n + 1) p1 with
        | .error e => .error e
        | .ok (_, p2) => expectSkipP n p2

/-- `ValveKeyValueParser.expect` over the in-parser token plumbing:
on a kind match consume and return the value; otherwise either recover
(skip to just before the next newline, returning `None`) or raise. -/
def expectP (self_recover : Bool) (tt : VKVKind) (n : Nat) (p : PState) :
    Except PyErr (Option (Option String) × PState) :=
  match peekP n p with
  | .error e => .error e
  | .ok (t, p1) =>
    if t.1 = tt then
      match advanceP n p1 with
      | .error e => .error e
      | .ok (tv, p2) => .ok (some tv.2, p2)
    else if self_recover then
      match expectSkipP n p1 with
      | .error e => .error e
      | .ok p2 => .ok (none, p2)
    else .error (.fgdParser t.1)

/-- A parsed KeyValues value: scalar string, `(value, condition)` pair,
or nested node. -/
inductive KVValue
  | str (s : String)
  | strCond (s c : String)
  | node (entries : List (String × KVValue))

/-- The ordered root mapping `self.tree`. -/
abbrev Tree := List (String × KVValue)

/-- One entry of `node_stack`: the key under which the frame was opened
in its parent (`none` for the root dict) and its entries so far.  The
head of the list is the top of the stack (`node_stack[-1]`). -/
abbrev Frame := Option String × Tree

/-- `node_stack[-1][key] = value` — `IndexError` on an empty stack. -/
def assignTop (stack : List Frame) (k : String) (v : KVValue) :
    Except PyErr (List Frame) :=
  match stack with
  | [] => .error .indexError
  | (fk, entries) :: rest => .ok ((fk, Bsp.assocUpdate entries k v) :: rest)

/-- `node_stack[-1][key] = new_tree_node; node_stack.append(new_tree_node)`:
reserve the key's position in the parent (Python inserts the child dict
by reference at brace time) and push an empty frame. -/
def pushFrame (stack : List Frame) (k : String) : Except PyErr (List Frame) :=
  match stack with
  | [] => .error .indexError
  | (fk, entries) :: rest =>
    .ok ((some k, []) :: (fk, Bsp.assocUpdate entries k (.node [])) :: rest)

/-- `node_stack.pop(-1)`: attach the finished frame into its parent's
reserved slot (Python's in-place mutation made this attachment visible
through the reference inserted at brace time); popping the root frame
records the finished root; popping an empty stack raises `IndexError`. -/
def closeTop (stack : List Frame) (root : Option Tree) :
    Except PyErr (List Frame × Option Tree) :=
  match stack with
  | [] => .error .indexError
  | (none, entries) :: rest => .ok (rest, some entries)
  | [(some _, _)] => .ok ([], root)
  | (some k, entries) :: (pk, pe) :: rest =>
    .ok ((pk, Bsp.assocUpdate pe k (.node entries)) :: rest, root)

/-- Parsing ends with residual unclosed scopes simply abandoned: their
content is already visible in the tree through the references inserted
at brace time, which the model realises by folding the remaining frames
(top first, each into its parent's reserved slot) down to the root
frame's entries; with an empty stack the previously popped root is the
tree.  `pending` carries the frame folded so far. -/
def finalizeFrom (pending : Option (String × Tree)) :
    List Frame → Option Tree → Tree
  | [], root => root.getD []
  | (fk, fe) :: rest, root =>
    let fe1 := match pending with
      | some (k, entries) => Bsp.assocUpdate fe k (.node entries)
      | none => fe
    match fk with
    | none => fe1
    | some k => finalizeFrom (some (k, fe1)) rest root

/-- Fold the whole residual stack. -/
def finalize (stack : List Frame) (root : Option Tree) : Tree :=
  finalizeFrom none stack root

/-- The while-loop of `ValveKeyValueParser.parse`, one recursive call
per iteration.  The loop guard is the lexer's truthiness
(`while self._lexer:` — unread characters remain), not exhaustion of
the token stream.  Branch order and token consumption follow the source
statement by statement. -/
def parseLoop (self_recover : Bool) :
    Nat → PState → List Frame → Option Tree → Except PyErr Tree
  | 0, _, _, _ => .error .fuelOut
  | n + 1, p0, stack, root =>
    if p0.chars.isEmpty then .ok (finalize stack root)
    else
      match skipNewlinesP (n + 1) p0 with
      | .error e => .error e
      | .ok p1 =>
        match peekP (n + 1) p1 with
        | .error e => .error e
        | .ok (t, p2) =>
          if t.1 = .STRING then
            match advanceP (n + 1) p2 with
            | .error e => .error e
            | .ok (kt, p3) =>
              let key := kt.2.getD ""
              match skipNewlinesP (n + 1) p3 with
              | .error e => .error e
              | .ok p4 =>
                match peekP (n + 1) p4 with
                | .error e => .error e
                | .ok (t2, p5) =>
                  if t2.1 = .LBRACE then
                    match advanceP (n + 1) p5 with
                    | .error e => .error e
                    | .ok (_, p6) =>
                      match pushFrame stack key with
                      | .error e => .error e
                      | .ok stack1 => parseLoop self_recover n p6 stack1 root
                  else if t2.1 = .STRING then
                    match advanceP (n + 1) p5 with
                    | .error e => .error e
                    | .ok (vt, p6) =>
                      match peekP (n + 1) p6 with
                      | .error e => .error e
                      | .ok (t3, p7) =>
                        if t3.1 = .LBRACKET then
                          match advanceP (n + 1) p7 with
                          | .error e => .error e
                          | .ok (_, p8) =>
                            match advanceP (n + 1) p8 with
                            | .error e => .error e
                            | .ok (ct, p9) =>
                              match expectP self_recover .RBRACKET (n + 1) p9 with
                              | .error e => .error e
                              | .ok (_, p10) =>
                                match assignTop stack key
                                    (.strCond (vt.2.getD "") (ct.2.getD "")) with
                                | .error e => .error e
                                | .ok stack1 =>
                                  match expectP self_recover .NEWLINE (n + 1) p10 with
                                  | .error e => .error e
                                  | .ok (_, p11) =>
                                    parseLoop self_recover n p11 stack1 root
                        else
                          match assignTop stack key (.str (vt.2.getD "")) with
                          | .error e => .error e
                          | .ok stack1 =>
                            match expectP self_recover .NEWLINE (n + 1) p7 with
                            | .error e => .error e
                            | .ok (_, p8) => parseLoop self_recover n p8 stack1 root
                  else parseLoop self_recover n p5 stack root
          else if t.1 = .RBRACE then
            match advanceP (n + 1) p2 with
            | .error e => .error e
            | .ok (_, p3) =>
              match closeTop stack root with
              | .error e => .error e
              | .ok (stack1, root1) => parseLoop self_recover n p3 stack1 root1
          else if t.1 = .EOF then .ok (finalize stack root)
          else .error (.fgdParser t.1)

/-- `buffer.replace('\r\n', '\n')` from the lexer's constructor. -/
def crlfReplace : List Char → List Char
  | [] => []
  | '\r' :: '\n' :: rest => '\n' :: crlfReplace rest
  | c :: rest => c :: crlfReplace rest

/-- `ValveKeyValueParser(buffer_and_name=(buffer, name), self_recover).parse()`
followed by reading `self.tree`.  The fuel bounds recursion depth only;
`2 * length + 16` always suffices since every level consumes input. -/
def parse (self_recover : Bool) (buffer : String) : Except PyErr Tree :=
  let cs := crlfReplace buffer.data
  parseLoop self_recover (2 * cs.length + 16) ⟨none, cs, false⟩ [(none, [])] none

/-- The recovery loop of `ValveKeyValueParser.expect` over the token
stream in isolation (the remaining outputs of the lexer generator,
ending in the EOF token): `while not self.match(NEWLINE): self.advance()`.
`match` peeks, so the loop stops with the newline still in the stream;
peeking an exhausted generator raises `StopIteration`. -/
def skipToNewline : List VToken → Except PyErr (List VToken)
  | [] => .error .stopIteration
  | t :: rest => if t.1 = .NEWLINE then .ok (t :: rest) else skipToNewline rest

/-- `ValveKeyValueParser.expect` over the remaining token stream: on a
kind match, consume the token and return its value; on a mismatch with
`self_recover`, warn and run the recovery loop (returning `None`);
without recovery, raise `FGDParserException`. -/
def expectTok (self_recover : Bool) (tt : VKVKind) :
    List VToken → Except PyErr (Option (Option String) × List VToken)
  | [] => .error .stopIteration
  | t :: rest =>
    if t.1 = tt then .ok (some t.2, rest)
    else if self_recover then
      match skipToNewline (t :: rest) with
      | .error e => .error e
      | .ok ts => .ok (none, ts)
    else .error (.fgdParser t.1)

end KV

namespace Ent

/-- The keyword parameters `ValveKeyValueParser.__init__` accepts
(`kv_parser.py` line 177): `path`, `buffer_and_name`, `self_recover`. -/
def valveKeyValueParserParams : List String :=
  ["path", "buffer_and_name", "self_recover"]

/-- The keyword arguments `EntityLump.parse` passes to that constructor
(`entity_lump.py` line 18): `buffer_and_name`, `self_recover`,
`array_of_blocks`. -/
def entityLumpCallKwargs : List String :=
  ["buffer_and_name", "self_recover", "array_of_blocks"]

/-- Python keyword-argument binding: a keyword argument that matches no
declared parameter raises `TypeError`. -/
def pyBindKwargs (accepted kwargs : List String) : Except String Unit :=
  match kwargs.find? (fun k => !(accepted.contains k)) with
  | some k => .error ("TypeError: unexpected keyword argument " ++ k)
  | none => .ok ()

/-- `bytes.strip(b"\x00")`: remove the byte value `b` from both ends. -/
def pyBytesStrip (b : Nat) (bytes : List Nat) : List Nat :=
  ((bytes.dropWhile (· = b)).reverse.dropWhile (· = b)).reverse

/-- `.decode('latin')`: latin-1 maps each byte to the code point of the
same value. -/
def latinDecode (bytes : List Nat) : List Char := bytes.map Char.ofNat

/-- A flat entity key/value record. -/
abbrev EntityRecord := List (String × String)

/-- `EntityLump.parse`: read the lump slice, strip NUL bytes, decode as
latin-1, then construct
`ValveKeyValueParser(buffer_and_name=..., self_recover=True, array_of_blocks=True)`.
The constructor call's keyword binding is evaluated here because
`__init__` accepts no `array_of_blocks` parameter; the success branch is
unreachable (and the parser also has no array-of-blocks behaviour to
model beyond it). -/
def entityLumpParse (lumpBytes : List Nat) : Except String (List EntityRecord) :=
  let text := String.mk (latinDecode (pyBytesStrip 0 lumpBytes))
  match pyBindKwargs valveKeyValueParserParams entityLumpCallKwargs with
  | .error e => .error e
  | .ok () =>
    let _ := text
    .error "unreachable: ValveKeyValueParser rejected the call"

end Ent

/-! ### Helper lemmas -/

namespace Bsp

theorem assocFind_assocUpdate_self {α β : Type} [DecidableEq α]
    (l : List (α × β)) (a : α) (b : β) :
    assocFind (assocUpdate l a b) a = some b := by
  induction l with
  | nil => simp [assocUpdate, assocFind]
  | cons hd tl ih =>
    obtain ⟨k, v⟩ := hd
    by_cases hk : k = a
    · subst hk
      simp [assocUpdate, assocFind]
    · simp [assocUpdate, assocFind, hk, ih]

theorem respawnStoreLoop_error (recs : Nat → LumpInfo) :
    ∀ (count i : Nat) (acc : List (Option LumpInfo)),
      1 ≤ count →
      acc.length + 1 = i + count →
      respawnStoreLoop recs i count acc = .error "IndexError" := by
  intro count
  induction count with
  | zero =>
    intro i acc hc h
    omega
  | succ m ih =>
    intro i acc _ h
    by_cases hm : m = 0
    · subst hm
      have hlen : acc.length = i := by omega
      simp [respawnStoreLoop, pyListSet, hlen]
    · have hlt : i < acc.length := by omega
      simp only [respawnStoreLoop, pyListSet, if_pos hlt]
      exact ih (i + 1) _ (by omega) (by simp [List.length_set]; omega)

end Bsp

namespace KV

theorem skipToNewline_eq_dropWhile :
    ∀ (l : List VToken), (∃ u ∈ l, u.1 = VKVKind.NEWLINE) →
      skipToNewline l = .ok (l.dropWhile (fun u => u.1 != VKVKind.NEWLINE)) := by
  intro l
  induction l with
  | nil =>
    rintro ⟨u, hu, -⟩
    exact absurd hu (List.not_mem_nil u)
  | cons t rest ih =>
    rintro ⟨u, hu, hnl⟩
    by_cases ht : t.1 = VKVKind.NEWLINE
    · simp [skipToNewline, ht, List.dropWhile]
    · have hmem : u ∈ rest := by
        rcases List.mem_cons.mp hu with h | h
        · subst h; exact absurd hnl ht
        · exact h
      have hbne : (t.1 != VKVKind.NEWLINE) = true := by
        simpa [bne_iff_ne] using ht
      simp [skipToNewline, ht, List.dropWhile, hbne, ih ⟨u, hmem, hnl⟩]

theorem head_dropWhile_newline :
    ∀ (l : List VToken), (∃ u ∈ l, u.1 = VKVKind.NEWLINE) →
      ((l.dropWhile (fun u => u.1 != VKVKind.NEWLINE)).head?.map Prod.fst) =
        some VKVKind.NEWLINE := by
  intro l
  induction l with
  | nil =>
    rintro ⟨u, hu, -⟩
    exact absurd hu (List.not_mem_nil u)
  | cons t rest ih =>
    rintro ⟨u, hu, hnl⟩
    by_cases ht : t.1 = VKVKind.NEWLINE
    · simp [List.dropWhile, ht]
    · have hmem : u ∈ rest := by
        rcases List.mem_cons.mp hu with h | h
        · subst h; exact absurd hnl ht
        · exact h
      have hbne : (t.1 != VKVKind.NEWLINE) = true := by
        simpa [bne_iff_ne] using ht
      simp only [List.dropWhile, hbne]
      exact ih ⟨u, hmem, hnl⟩

end KV

/-! ### Claim theorems -/

/-- C1: evaluated at the failing input, the code contradicts the claim.
Rule A for lump "X" carries a present and *satisfied*
minimum-container-version bound (20 ≤ container version 21), yet its
rank is 0, not the claimed 1: the ranking loop re-uses the exclusion
comparison `bsp_version > self.version`, which is always false for a
surviving candidate.  Rule B, unconstrained and iterated after A, then
ties at rank 0, overwrites A in the rank-keyed `best_matches` dict, and
is selected — where the claim requires A (score 1) to win. -/
theorem c1_satisfied_min_version_scores_zero :
    Bsp.rankOf ⟨"m.bsp", [], 21, 220, [⟨0, 0, 4, 0, false, 0⟩], [], [], 0⟩
        ⟨0, "X", some 20, none, none⟩ = .ok 0 ∧
    Bsp.selectDecoder
        ⟨[(0, ⟨0, "X", some 20, none, none⟩), (1, ⟨0, "X", none, none, none⟩)],
         fun d _ _ => d, id, fun _ => none⟩
        ⟨"m.bsp", [], 21, 220, [⟨0, 0, 4, 0, false, 0⟩], [], [], 0⟩ "X" =
      .ok (some (1, ⟨0, "X", none, none, none⟩)) :=
  ⟨rfl, rfl⟩

/-- C2: the claim describes the intended directory load, but
`RespawnBSPFile.from_filename` allocates only `last_lump` descriptor
slots (`[None] * last_lump`) and then iterates `last_lump + 1` times,
so storing the record read at directory position `last_lump` raises
`IndexError` for every respawn container — no descriptor directory is
ever stored as the claim describes. -/
theorem c2_respawn_descriptor_loop_index_error
    (recs : Nat → Bsp.LumpInfo) (last_lump : Nat) :
    Bsp.respawnLoadDescriptors recs last_lump = .error "IndexError" :=
  Bsp.respawnStoreLoop_error recs (last_lump + 1) 0 (List.replicate last_lump none)
    (by omega) (by simp)

/-- C3: the claim describes the intended entity decoding, but
`EntityLump.parse` constructs `ValveKeyValueParser` with a keyword
argument `array_of_blocks` that `__init__` does not declare, so every
call raises `TypeError` before any text is parsed; no entity lump can
decode as the claim describes. -/
theorem c3_entity_lump_parse_type_error (lumpBytes : List Nat) :
    Ent.entityLumpParse lumpBytes =
      .error "TypeError: unexpected keyword argument array_of_blocks" := rfl

/-- C4 counterexample: a file exists whose first four magic bytes
(`XXXX`) are neither `VBSP` nor `rBSP`, yet `open_bsp` does not raise:
it falls off the `if/elif` chain and returns `None`, a non-error
result — contradicting the claim that every unrecognized magic raises. -/
theorem c4_unrecognized_magic_returns_none :
    Bsp.open_bsp (fun _ => some [88, 88, 88, 88, 1, 0, 0, 0]) "mystery.bsp" =
      .ok none := rfl

/-- C4 amended: opening fails (assertion error) when the file does not
exist; but when the magic of an existing file is neither `VBSP` nor
`rBSP`, `open_bsp` returns `None` — a silent non-error absence — instead
of raising. -/
theorem c4_open_bsp_amended :
    (∀ (fs : String → Option Bsp.Buf) (p : String), fs p = none →
        Bsp.open_bsp fs p = .error "AssertionError: file does not exist") ∧
    (∀ (fs : String → Option Bsp.Buf) (p : String) (bytes : Bsp.Buf),
        fs p = some bytes → 8 ≤ bytes.length →
        bytes.take 4 ≠ Bsp.vbspMagic → bytes.take 4 ≠ Bsp.rbspMagic →
        Bsp.open_bsp fs p = .ok none) := by
  constructor
  · intro fs p h
    simp [Bsp.open_bsp, h]
  · intro fs p bytes h hlen h1 h2
    have hnl : ¬ bytes.length < 8 := by omega
    simp [Bsp.open_bsp, h, hnl, h1, h2]

/-- C4 witness: the amended theorem applied at a missing file and at an
existing file with magic `FOOB`. -/
theorem c4_open_bsp_amended_witness :
    Bsp.open_bsp (fun _ => none) "missing.bsp" =
      .error "AssertionError: file does not exist" ∧
    Bsp.open_bsp (fun _ => some [70, 79, 79, 66, 1, 0, 0, 0]) "m2.bsp" =
      .ok none :=
  ⟨c4_open_bsp_amended.1 (fun _ => none) "missing.bsp" rfl,
   c4_open_bsp_amended.2 (fun _ => some [70, 79, 79, 66, 1, 0, 0, 0]) "m2.bsp"
     [70, 79, 79, 66, 1, 0, 0, 0] rfl (by decide) (by decide) (by decide)⟩

/-- C5 counterexample: `expect` in recovery mode, expecting `]` but
peeking a string token, discards only the tokens *before* the next
newline: the newline token itself remains at the head of the stream,
contradicting the claim's "up to and including the next newline". -/
theorem c5_expect_keeps_newline_counterexample :
    KV.expectTok true .RBRACKET
        [(.STRING, some "x"), (.NEWLINE, some "\n"), (.STRING, some "y"), (.EOF, none)] =
      .ok (none, [(.NEWLINE, some "\n"), (.STRING, some "y"), (.EOF, none)]) ∧
    ([(.NEWLINE, some "\n"), (.STRING, some "y"), (.EOF, none)] : List KV.VToken) ≠
      [(.STRING, some "y"), (.EOF, none)] :=
  ⟨rfl, by decide⟩

/-- C5 amended: in recovery mode, `expect` on a token of the wrong kind
emits a non-fatal diagnostic and discards tokens up to but *not*
including the next newline token — the newline stays as the next token
for the resumed parser (whose newline skipping then consumes it) —
provided a newline token remains in the stream (otherwise the recovery
loop itself runs off the stream and raises `StopIteration`). -/
theorem c5_expect_recovery_amended (tt : KV.VKVKind) (t : KV.VToken)
    (rest : List KV.VToken)
    (hmismatch : t.1 ≠ tt)
    (hnl : ∃ u ∈ t :: rest, u.1 = KV.VKVKind.NEWLINE) :
    KV.expectTok true tt (t :: rest) =
      .ok (none, (t :: rest).dropWhile (fun u => u.1 != KV.VKVKind.NEWLINE)) ∧
    (((t :: rest).dropWhile (fun u => u.1 != KV.VKVKind.NEWLINE)).head?.map Prod.fst) =
      some KV.VKVKind.NEWLINE := by
  refine ⟨?_, KV.head_dropWhile_newline _ hnl⟩
  simp [KV.expectTok, hmismatch, KV.skipToNewline_eq_dropWhile _ hnl]

/-- C5 witness: the amended theorem applied to a concrete mismatching
stream. -/
theorem c5_expect_recovery_amended_witness :
    KV.expectTok true .RBRACKET
        [(.STRING, some "a"), (.NEWLINE, some "\n"), (.EOF, none)] =
      .ok (none,
        ([(.STRING, some "a"), (.NEWLINE, some "\n"), (.EOF, none)] :
            List KV.VToken).dropWhile (fun u => u.1 != KV.VKVKind.NEWLINE)) ∧
    ((([(.STRING, some "a"), (.NEWLINE, some "\n"), (.EOF, none)] :
        List KV.VToken).dropWhile (fun u => u.1 != KV.VKVKind.NEWLINE)).head?.map
          Prod.fst) = some KV.VKVKind.NEWLINE :=
  c5_expect_recovery_amended .RBRACKET (.STRING, some "a")
    [(.NEWLINE, some "\n"), (.EOF, none)] (by decide)
    ⟨(.NEWLINE, some "\n"), by simp, rfl⟩

/-- C6: `get_lump` is memoized by name: whenever a call returns a result
and a post-state, calling it again with the same name on that post-state
returns the very same result and leaves the state (including the decode
counter, hence without invoking any decoder again) unchanged; the cached
entry stored under the name by the first call is what the second call
returns. -/
theorem c6_get_lump_memoized (env : Bsp.BspEnv) (s : Bsp.BspState)
    (name : String) (r : Option Bsp.LumpVal) (s1 : Bsp.BspState)
    (h : Bsp.get_lump env s name = .ok (r, s1)) :
    Bsp.get_lump env s1 name = .ok (r, s1) := by
  unfold Bsp.get_lump at h
  split at h
  · rename_i v hfind
    obtain ⟨hv, hs⟩ : v = r ∧ s = s1 := by simpa using h
    subst hv
    subst hs
    unfold Bsp.get_lump
    simp [hfind]
  · rename_i hfind
    split at h
    · simp at h
    · rename_i hsel
      obtain ⟨hr, hs⟩ : none = r ∧ s = s1 := by simpa using h
      subst hs
      unfold Bsp.get_lump
      rw [hfind, hsel, ← hr]
    · rename_i d dep hsel
      split at h
      · simp at h
      · rename_i parsed s2 hpl
        obtain ⟨hr, hs⟩ : parsed = r ∧
            { s2 with lumpsByName :=
                Bsp.assocUpdate s2.lumpsByName name parsed } = s1 := by
          simpa using h
        subst hr
        subst hs
        unfold Bsp.get_lump
        simp [Bsp.assocFind_assocUpdate_self]

/-- C6 witness: on a fresh container with one registered decoder for
lump "E", the first call decodes (decode count 1) and caches; the
memoization theorem applied to it shows the second call returns the
identical cached result and state. -/
theorem c6_get_lump_memoized_witness :
    Bsp.get_lump
        ⟨[(3, ⟨0, "E", none, none, none⟩)], fun d li _ => d + li.size, id,
         fun _ => none⟩
        ⟨"m.bsp", [9, 9, 9, 9], 20, 220, [⟨0, 0, 2, 0, false, 0⟩],
         [("E", some 5)], [(0, some 5)], 1⟩ "E" =
      .ok (some 5,
        ⟨"m.bsp", [9, 9, 9, 9], 20, 220, [⟨0, 0, 2, 0, false, 0⟩],
         [("E", some 5)], [(0, some 5)], 1⟩) :=
  c6_get_lump_memoized
    ⟨[(3, ⟨0, "E", none, none, none⟩)], fun d li _ => d + li.size, id,
     fun _ => none⟩
    ⟨"m.bsp", [9, 9, 9, 9], 20, 220, [⟨0, 0, 2, 0, false, 0⟩], [], [], 0⟩
    "E" (some 5)
    ⟨"m.bsp", [9, 9, 9, 9], 20, 220, [⟨0, 0, 2, 0, false, 0⟩],
     [("E", some 5)], [(0, some 5)], 1⟩ rfl

/-- C7: a quote character immediately followed by an identical quote
character makes the lexer emit an explicit empty-string token consuming
both quotes; end to end, `key ""` parses to a tree in which "key" is
present with the empty scalar value (lookup yields `some`, not the
`none` of an absent key). -/
theorem c7_empty_quoted_string :
    (∀ (q : Char) (rest : List Char), q = '"' ∨ q = '\'' →
        KV.lexStep q (q :: rest) = .ok (some (.STRING, some ""), rest)) ∧
    KV.parse true "key \"\"\n" = .ok [("key", KV.KVValue.str "")] ∧
    Bsp.assocFind [("key", KV.KVValue.str "")] "key" = some (KV.KVValue.str "") := by
  refine ⟨?_, rfl, rfl⟩
  rintro q rest (h | h) <;> subst h <;> rfl

/-- C7 witness: the lexer-step part applied at a concrete double quote
pair. -/
theorem c7_empty_quoted_string_witness :
    KV.lexStep '"' ['"', 'x'] = .ok (some (.STRING, some ""), ['x']) :=
  c7_empty_quoted_string.1 '"' ['x'] (Or.inl rfl)

/-- C8: for a lump marked compressed with no external override file and
a passing decompressed-size assertion, `_get_lump_buffer` swaps the
container's working buffer for the decompressed slice and returns `None`
(its else branch has no return), so `parse_lump` hands `None` — not the
decompressed bytes — to the matched decoder. -/
theorem c8_compressed_lump_gives_none_buffer
    (env : Bsp.BspEnv) (s : Bsp.BspState) (d lump_id : Nat) (li : Bsp.LumpInfo)
    (hext : env.fs (Bsp.extLumpPath s.filename lump_id) = none)
    (hcomp : li.compressed = true)
    (hsize : (env.decompress (Bsp.sliceBuf s.buffer li.offset li.size)).length =
      li.decompressed_size)
    (hinfo : s.lumps_info[lump_id]? = some li)
    (hnz : li.size ≠ 0) :
    Bsp.get_lump_buffer env s lump_id li =
      .ok (none,
        { s with buffer := env.decompress (Bsp.sliceBuf s.buffer li.offset li.size) }) ∧
    Bsp.parse_lump env s d lump_id =
      .ok (some (env.decoder d li none),
        { s with buffer := env.decompress (Bsp.sliceBuf s.buffer li.offset li.size),
                 lumpsById := Bsp.assocUpdate s.lumpsById lump_id
                   (some (env.decoder d li none)),
                 decodeCount := s.decodeCount + 1 }) := by
  have h1 : Bsp.get_lump_buffer env s lump_id li =
      .ok (none,
        { s with buffer := env.decompress (Bsp.sliceBuf s.buffer li.offset li.size) }) := by
    simp [Bsp.get_lump_buffer, hext, hcomp, hsize]
  refine ⟨h1, ?_⟩
  simp [Bsp.parse_lump, hinfo, hnz, h1]

/-- C8 witness: a concrete compressed lump with an identity codec. -/
theorem c8_compressed_lump_witness :
    Bsp.get_lump_buffer ⟨[], fun d _ _ => d, id, fun _ => none⟩
        ⟨"m.bsp", [5, 6, 7, 8], 20, 220, [⟨0, 1, 3, 0, true, 3⟩], [], [], 0⟩
        0 ⟨0, 1, 3, 0, true, 3⟩ =
      .ok (none,
        ⟨"m.bsp", [6, 7, 8], 20, 220, [⟨0, 1, 3, 0, true, 3⟩], [], [], 0⟩) ∧
    Bsp.parse_lump ⟨[], fun d _ _ => d, id, fun _ => none⟩
        ⟨"m.bsp", [5, 6, 7, 8], 20, 220, [⟨0, 1, 3, 0, true, 3⟩], [], [], 0⟩
        4 0 =
      .ok (some 4,
        ⟨"m.bsp", [6, 7, 8], 20, 220, [⟨0, 1, 3, 0, true, 3⟩], [],
         [(0, some 4)], 1⟩) :=
  c8_compressed_lump_gives_none_buffer
    ⟨[], fun d _ _ => d, id, fun _ => none⟩
    ⟨"m.bsp", [5, 6, 7, 8], 20, 220, [⟨0, 1, 3, 0, true, 3⟩], [], [], 0⟩
    4 0 ⟨0, 1, 3, 0, true, 3⟩ rfl rfl rfl rfl (by decide)

/-- C9: a closing brace with only the root scope on the node stack pops
the root; a subsequent key/value statement then indexes the empty stack
and raises `IndexError` — in recovery mode just as without it (recovery
only guards `expect`), and for quoted statements just as for bare
ones. -/
theorem c9_root_pop_then_statement_index_error :
    KV.parse true "\x7d\nk v\n" = .error .indexError ∧
    KV.parse false "\x7d\nk v\n" = .error .indexError ∧
    KV.parse true "\x7d\n\"a\" \"b\"\n" = .error .indexError :=
  ⟨rfl, rfl, rfl⟩

/-- C10: the lexer's empty-string special case fires for *any* two
immediately-consecutive quote characters, identical or not: a double
quote followed by a single quote (or vice versa) is consumed as one
empty-string token rather than opening a quoted string; end to end,
`k "'` assigns the empty scalar to `k`. -/
theorem c10_any_two_quotes_empty_string :
    (∀ (q d : Char) (rest : List Char), q = '"' ∨ q = '\'' → d = '"' ∨ d = '\'' →
        KV.lexStep q (d :: rest) = .ok (some (.STRING, some ""), rest)) ∧
    KV.parse true "k \"'\n" = .ok [("k", KV.KVValue.str "")] := by
  constructor
  · rintro q d rest (hq | hq) (hd | hd) <;> subst hq <;> subst hd <;> rfl
  · rfl

/-- C10 witness: the lexer-step part applied to a double quote followed
by a single quote. -/
theorem c10_any_two_quotes_witness :
    KV.lexStep '"' ['\'', 'x'] = .ok (some (.STRING, some ""), ['x']) :=
  c10_any_two_quotes_empty_string.1 '"' '\'' ['x'] (Or.inl rfl) (Or.inr rfl)
